import Mathlib

/-!
Verification development for the Football Genie agent backend.

The definitions below are a shallow embedding of the repository's Python
sources:

* `backend/langchain_tools.py` — the propose/confirm mutation tools over the
  in-memory favorite-team, favorite-player and calendar collections
  (the module-level lists `_favorite_teams`, `_favorite_players`,
  `_user_calendar`).  Each Python tool reads and possibly reassigns that
  global list and returns a string; here each tool is a function from the
  collection (plus its string arguments) to the pair
  (returned message, collection afterwards).
* `backend/espn_api.py` — the response normalizer (`parse_football_games`,
  `parse_football_standings`, `_parse_football_standing_entry`, `_safe_int`).
  Raw upstream JSON is embedded as structures of optional fields mirroring
  exactly the `get`-with-default chains the Python code performs.
* `backend/football_data.py` — `FootballDataService.get_league_standings`
  and the status filter of `FootballDataService.get_matches`.

Python's process-seeded `hash` builtin is kept abstract as an explicit
function parameter `pyHash : String → Int`; everything downstream of it is
translated literally (`abs(hash(name.lower())) % 10000`).
-/

set_option maxRecDepth 16384

/-- A scalar JSON value as the Python code sees it: `None`, an int, or a
string.  (The payload fields relevant here never carry other shapes.) -/
inductive JVal where
  | jnull : JVal
  | jint : Int → JVal
  | jstr : String → JVal
deriving Repr, DecidableEq

/-- Python's `str.lower()` (character-wise lowering, as `String.toLower`
computes it; written over the character list so that it reduces inside the
kernel). -/
def pyLower (s : String) : String :=
  ⟨s.data.map Char.toLower⟩

/-- Strip leading and trailing whitespace from a character list (the
stripping `float()` performs on its string argument). -/
def trimChars (cs : List Char) : List Char :=
  ((cs.dropWhile Char.isWhitespace).reverse.dropWhile Char.isWhitespace).reverse

/-- Value of a list of decimal digit characters. -/
def decDigitsVal (cs : List Char) : Nat :=
  cs.foldl (fun a c => a * 10 + (c.toNat - 48)) 0

/-- Model of Python `int(float(s))` for the plain decimal literals occurring
in sports payloads: optional surrounding whitespace, optional sign, digits
with an optional fractional part; the result is truncated toward zero.
`none` models `float(s)` raising `ValueError` (e.g. on `"N/A"`).  Exotic
float syntax (exponents, `inf`, `nan`, underscores) is not exercised by any
input considered in this development. -/
def pyFloatTrunc (s : String) : Option Int :=
    let (neg, cs) :=
    match trimChars s.data with
    | [] => (false, ([] : List Char))
    | c :: rest =>
        if c = '-' then (true, rest)
        else if c = '+' then (false, rest)
        else (false, c :: rest)
  let ip := cs.takeWhile (fun c => c != '.')
  let rest := cs.dropWhile (fun c => c != '.')
  let valid :=
    match rest with
    | [] => !ip.isEmpty && ip.all Char.isDigit
    | _ :: fp =>
        (!ip.isEmpty || !fp.isEmpty) && ip.all Char.isDigit && fp.all Char.isDigit
  if valid then
    let v : Int := (decDigitsVal ip : Int)
    some (if neg then -v else v)
  else
    none

/-- `ESPNClient._safe_int` applied to a (non-`None`) scalar: `int(float(v))`
with any failure yielding `0`. -/
def safe_intV : JVal → Int
  | JVal.jnull => 0
  | JVal.jint n => n
  | JVal.jstr s => (pyFloatTrunc s).getD 0

/-- `ESPNClient._safe_int` applied to the result of a `dict.get` (so `none`
is a missing key, which Python sees as `None`). -/
def safe_int : Option JVal → Int
  | none => 0
  | some v => safe_intV v

/-- `charsHave sub s` decides whether `sub` occurs contiguously inside `s`
(Python's `sub in s` on strings, viewed on the character lists). -/
def charsHave (sub : List Char) : List Char → Bool
  | [] => sub.isEmpty
  | c :: t => sub.isPrefixOf (c :: t) || charsHave sub t

/-- `strHasB s sub` is Python's `sub in s` substring test. -/
def strHasB (s sub : String) : Bool :=
  charsHave sub.data s.data

/-! ## Mutation tools (`backend/langchain_tools.py`)

Collections are the module-level lists; each tool is embedded as
`collection → arguments → (returned string, collection afterwards)`.
Python string formatting is reproduced literally (braces of the embedded
JSON written as escapes). -/

/-- An element of `_favorite_teams`: the dict built by
`confirm_add_favorite_team`. -/
structure TeamEntry where
  id : Nat
  name : String
  league : String
deriving Repr, DecidableEq

/-- An element of `_favorite_players`. -/
structure PlayerEntry where
  id : Nat
  name : String
  team : String
  position : String
deriving Repr, DecidableEq

/-- An element of `_user_calendar`. -/
structure CalendarEntry where
  id : Nat
  home_team : String
  away_team : String
  date : String
  time : String
  league : String
  venue : String
deriving Repr, DecidableEq

/-- `abs(hash(name.lower())) % 10000`, with Python's `hash` abstracted as
`pyHash`. -/
def natIdOf (pyHash : String → Int) (name : String) : Nat :=
  (pyHash (pyLower name)).natAbs % 10000

/-- The duplicate test `team["name"].lower() == name.lower()`. -/
def teamKeyMatches (name : String) (t : TeamEntry) : Bool :=
  pyLower t.name == pyLower name

/-- The duplicate test `player["name"].lower() == name.lower()`. -/
def playerKeyMatches (name : String) (p : PlayerEntry) : Bool :=
  pyLower p.name == pyLower name

/-- The duplicate test on the `(home_team, away_team)` pair. -/
def calKeyMatches (home_team away_team : String) (m : CalendarEntry) : Bool :=
  (pyLower m.home_team == pyLower home_team) &&
    (pyLower m.away_team == pyLower away_team)

/-- `f"⚠️ \x7bname\x7d is already in your favorites!"` -/
def alreadyFavMsg (name : String) : String :=
  "⚠️ " ++ name ++ " is already in your favorites!"

/-- The proposal artifact returned by `add_team_to_favorites`. -/
def pendingTeamMsg (name league : String) (team_id : Nat) : String :=
  "⭐ **Add Team to Favorites**\n\nI\u0027d like to add the following team to your favorites:\n\n🏈 **"
    ++ name
    ++ "**\n🏆 League: "
    ++ league
    ++ "\n\n**Would you like me to add this team to your favorites?**\n\n[ACTION:PENDING_FAVORITE_TEAM]\n\x7b\"action_type\": \"ADD_FAVORITE_TEAM\", "
    ++ ("\"id\": " ++ toString team_id)
    ++ ", \"name\": \""
    ++ name
    ++ "\", \"league\": \""
    ++ league
    ++ "\"\x7d\n[/ACTION]"

/-- The success message returned by `confirm_add_favorite_team`. -/
def confirmAddTeamMsg (name league : String) (team_id count : Nat) : String :=
  "✅ **Team added to favorites!**\n\n⭐ **"
    ++ name
    ++ "** is now in your favorites!\n🏆 League: "
    ++ league
    ++ "\n\nYou now have "
    ++ toString count
    ++ " favorite team(s).\n\n[ACTION:ADD_FAVORITE_TEAM]\n\x7b"
    ++ ("\"id\": " ++ toString team_id)
    ++ ", \"name\": \""
    ++ name
    ++ "\", \"league\": \""
    ++ league
    ++ "\"\x7d\n[/ACTION]"

/-- The proposal artifact returned by `remove_team_from_favorites`. -/
def pendingRemoveTeamMsg (name : String) (team_id : Nat) : String :=
  "🗑️ **Remove Team from Favorites**\n\nAre you sure you want to remove this team from your favorites?\n\n❌ **"
    ++ name
    ++ "**\n\n**Do you want to proceed with removal?**\n\n[ACTION:PENDING_REMOVE_FAVORITE_TEAM]\n\x7b\"action_type\": \"REMOVE_FAVORITE_TEAM\", "
    ++ ("\"id\": " ++ toString team_id)
    ++ ", \"name\": \""
    ++ name
    ++ "\"\x7d\n[/ACTION]"

/-- The message returned by `confirm_remove_favorite_team` (returned on both
the found and the not-found path). -/
def confirmRemoveTeamMsg (name : String) (team_id count : Nat) : String :=
  "✅ **Team removed from favorites!**\n\n🗑️ **"
    ++ name
    ++ "** has been removed from your favorites.\n\nYou now have "
    ++ toString count
    ++ " favorite team(s).\n\n[ACTION:REMOVE_FAVORITE_TEAM]\n\x7b"
    ++ ("\"id\": " ++ toString team_id)
    ++ ", \"name\": \""
    ++ name
    ++ "\"\x7d\n[/ACTION]"

/-- `f"\n🏈 Team: \x7bteam\x7d" if team else ""` -/
def playerTeamInfo (team : String) : String :=
  if team == "" then "" else "\n🏈 Team: " ++ team

/-- `f"\n📍 Position: \x7bposition\x7d" if position else ""` -/
def playerPositionInfo (position : String) : String :=
  if position == "" then "" else "\n📍 Position: " ++ position

/-- The proposal artifact returned by `add_player_to_favorites`. -/
def pendingPlayerMsg (name team position : String) (player_id : Nat) : String :=
  "⭐ **Add Player to Favorites**\n\nI\u0027d like to add the following player to your favorites:\n\n👤 **"
    ++ name
    ++ "**"
    ++ playerTeamInfo team
    ++ playerPositionInfo position
    ++ "\n\n**Would you like me to add this player to your favorites?**\n\n[ACTION:PENDING_FAVORITE_PLAYER]\n\x7b\"action_type\": \"ADD_FAVORITE_PLAYER\", "
    ++ ("\"id\": " ++ toString player_id)
    ++ ", \"name\": \""
    ++ name
    ++ "\", \"team\": \""
    ++ team
    ++ "\", \"position\": \""
    ++ position
    ++ "\"\x7d\n[/ACTION]"

/-- The success message returned by `confirm_add_favorite_player`. -/
def confirmAddPlayerMsg (name team position : String) (player_id count : Nat) : String :=
  "✅ **Player added to favorites!**\n\n⭐ **"
    ++ name
    ++ "** is now in your favorites!"
    ++ playerTeamInfo team
    ++ playerPositionInfo position
    ++ "\n\nYou now have "
    ++ toString count
    ++ " favorite player(s).\n\n[ACTION:ADD_FAVORITE_PLAYER]\n\x7b"
    ++ ("\"id\": " ++ toString player_id)
    ++ ", \"name\": \""
    ++ name
    ++ "\", \"team\": \""
    ++ team
    ++ "\", \"position\": \""
    ++ position
    ++ "\"\x7d\n[/ACTION]"

/-- The proposal artifact returned by `remove_player_from_favorites`. -/
def pendingRemovePlayerMsg (name : String) (player_id : Nat) : String :=
  "🗑️ **Remove Player from Favorites**\n\nAre you sure you want to remove this player from your favorites?\n\n❌ **"
    ++ name
    ++ "**\n\n**Do you want to proceed with removal?**\n\n[ACTION:PENDING_REMOVE_FAVORITE_PLAYER]\n\x7b\"action_type\": \"REMOVE_FAVORITE_PLAYER\", "
    ++ ("\"id\": " ++ toString player_id)
    ++ ", \"name\": \""
    ++ name
    ++ "\"\x7d\n[/ACTION]"

/-- The message returned by `confirm_remove_favorite_player`. -/
def confirmRemovePlayerMsg (name : String) (player_id count : Nat) : String :=
  "✅ **Player removed from favorites!**\n\n🗑️ **"
    ++ name
    ++ "** has been removed from your favorites.\n\nYou now have "
    ++ toString count
    ++ " favorite player(s).\n\n[ACTION:REMOVE_FAVORITE_PLAYER]\n\x7b"
    ++ ("\"id\": " ++ toString player_id)
    ++ ", \"name\": \""
    ++ name
    ++ "\"\x7d\n[/ACTION]"

/-- `f"⚠️ \x7bhome\x7d vs \x7baway\x7d is already in your calendar!"` -/
def alreadyCalMsg (home_team away_team : String) : String :=
  "⚠️ " ++ home_team ++ " vs " ++ away_team ++ " is already in your calendar!"

/-- `f"⚠️ \x7bhome\x7d vs \x7baway\x7d was not found in your calendar."` -/
def calNotFoundMsg (home_team away_team : String) : String :=
  "⚠️ " ++ home_team ++ " vs " ++ away_team ++ " was not found in your calendar."

/-- The proposal artifact returned by `add_match_to_calendar`. -/
def pendingCalMsg (home_team away_team date time league venue : String) : String :=
  "📋 **Game Details for Calendar**\n\nI\u0027d like to add the following game to your calendar:\n\n🏈 **"
    ++ home_team
    ++ " vs "
    ++ away_team
    ++ "**\n🏆 League: "
    ++ league
    ++ "\n📅 Date: "
    ++ date
    ++ "\n⏰ Time: "
    ++ time
    ++ "\n🏟️ Venue: "
    ++ venue
    ++ "\n\n**Would you like me to add this game to your calendar?**\n\n[ACTION:PENDING_APPROVAL]\n\x7b\"action_type\": \"ADD_TO_CALENDAR\", \"home_team\": \""
    ++ home_team
    ++ "\", \"away_team\": \""
    ++ away_team
    ++ "\", \"date\": \""
    ++ date
    ++ "\", \"time\": \""
    ++ time
    ++ "\", \"league\": \""
    ++ league
    ++ "\", \"venue\": \""
    ++ venue
    ++ "\"\x7d\n[/ACTION]"

/-- The success message returned by `confirm_add_to_calendar`. -/
def confirmAddCalMsg (home_team away_team date time league venue : String) (count : Nat) : String :=
  "✅ **Game added to your calendar!**\n\n📅 **"
    ++ home_team
    ++ " vs "
    ++ away_team
    ++ "**\n🏆 League: "
    ++ league
    ++ "\n📆 Date: "
    ++ date
    ++ "\n⏰ Time: "
    ++ time
    ++ "\n🏟️ Venue: "
    ++ venue
    ++ "\n\nYou now have "
    ++ toString count
    ++ " game(s) in your calendar.\n\n[ACTION:ADD_TO_CALENDAR]\n\x7b\"home_team\": \""
    ++ home_team
    ++ "\", \"away_team\": \""
    ++ away_team
    ++ "\", \"date\": \""
    ++ date
    ++ "\", \"time\": \""
    ++ time
    ++ "\", \"league\": \""
    ++ league
    ++ "\", \"venue\": \""
    ++ venue
    ++ "\"\x7d\n[/ACTION]"

/-- The proposal artifact returned by `remove_match_from_calendar`. -/
def pendingRemoveCalMsg (home_team away_team : String) : String :=
  "🗑️ **Confirm Removal**\n\nAre you sure you want to remove this game from your calendar?\n\n❌ **"
    ++ home_team
    ++ " vs "
    ++ away_team
    ++ "**\n\n**Do you want to proceed with removal?**\n\n[ACTION:PENDING_REMOVAL]\n\x7b\"action_type\": \"REMOVE_FROM_CALENDAR\", \"home_team\": \""
    ++ home_team
    ++ "\", \"away_team\": \""
    ++ away_team
    ++ "\"\x7d\n[/ACTION]"

/-- The success message returned by `confirm_remove_from_calendar`. -/
def confirmRemoveCalMsg (home_team away_team : String) (count : Nat) : String :=
  "✅ **Game removed from your calendar!**\n\n🗑️ "
    ++ home_team
    ++ " vs "
    ++ away_team
    ++ " has been removed.\n\nYou now have "
    ++ toString count
    ++ " game(s) in your calendar.\n\n[ACTION:REMOVE_FROM_CALENDAR]\n\x7b\"home_team\": \""
    ++ home_team
    ++ "\", \"away_team\": \""
    ++ away_team
    ++ "\"\x7d\n[/ACTION]"

/-- `add_team_to_favorites`: duplicate check, otherwise return the pending
artifact; the collection is never reassigned. -/
def add_team_to_favorites (pyHash : String → Int) (favs : List TeamEntry)
    (name league : String) : String × List TeamEntry :=
  if favs.any (teamKeyMatches name) then
    (alreadyFavMsg name, favs)
  else
    (pendingTeamMsg name league (natIdOf pyHash name), favs)

/-- `confirm_add_favorite_team`: duplicate check, otherwise append the new
entry (hash-derived id) and report the new count. -/
def confirm_add_favorite_team (pyHash : String → Int) (favs : List TeamEntry)
    (name league : String) : String × List TeamEntry :=
  if favs.any (teamKeyMatches name) then
    (alreadyFavMsg name, favs)
  else
    let team_id := natIdOf pyHash name
    let favs2 := favs ++ [{ id := team_id, name := name, league := league }]
    (confirmAddTeamMsg name league team_id favs2.length, favs2)

/-- `remove_team_from_favorites`: look the id up (falling back to the hash id
when the team is absent) and return the pending-removal artifact; the
collection is never reassigned. -/
def remove_team_from_favorites (pyHash : String → Int) (favs : List TeamEntry)
    (name : String) : String × List TeamEntry :=
  let team_id :=
    match favs.find? (teamKeyMatches name) with
    | some t => t.id
    | none => natIdOf pyHash name
  (pendingRemoveTeamMsg name team_id, favs)

/-- `confirm_remove_favorite_team`: pop the first entry matching the key (a
no-op when absent) and report the removal either way. -/
def confirm_remove_favorite_team (pyHash : String → Int) (favs : List TeamEntry)
    (name : String) : String × List TeamEntry :=
  let team_id :=
    match favs.find? (teamKeyMatches name) with
    | some t => t.id
    | none => natIdOf pyHash name
  let favs2 := favs.eraseP (teamKeyMatches name)
  (confirmRemoveTeamMsg name team_id favs2.length, favs2)

/-- `add_player_to_favorites`. -/
def add_player_to_favorites (pyHash : String → Int) (favs : List PlayerEntry)
    (name team position : String) : String × List PlayerEntry :=
  if favs.any (playerKeyMatches name) then
    (alreadyFavMsg name, favs)
  else
    (pendingPlayerMsg name team position (natIdOf pyHash name), favs)

/-- `confirm_add_favorite_player`. -/
def confirm_add_favorite_player (pyHash : String → Int) (favs : List PlayerEntry)
    (name team position : String) : String × List PlayerEntry :=
  if favs.any (playerKeyMatches name) then
    (alreadyFavMsg name, favs)
  else
    let player_id := natIdOf pyHash name
    let favs2 := favs ++ [{ id := player_id, name := name, team := team, position := position }]
    (confirmAddPlayerMsg name team position player_id favs2.length, favs2)

/-- `remove_player_from_favorites`. -/
def remove_player_from_favorites (pyHash : String → Int) (favs : List PlayerEntry)
    (name : String) : String × List PlayerEntry :=
  let player_id :=
    match favs.find? (playerKeyMatches name) with
    | some p => p.id
    | none => natIdOf pyHash name
  (pendingRemovePlayerMsg name player_id, favs)

/-- `confirm_remove_favorite_player`. -/
def confirm_remove_favorite_player (pyHash : String → Int) (favs : List PlayerEntry)
    (name : String) : String × List PlayerEntry :=
  let player_id :=
    match favs.find? (playerKeyMatches name) with
    | some p => p.id
    | none => natIdOf pyHash name
  let favs2 := favs.eraseP (playerKeyMatches name)
  (confirmRemovePlayerMsg name player_id favs2.length, favs2)

/-- `date if date else "TBD"` and friends: empty strings fall back to the
given default. -/
def orDefault (s d : String) : String :=
  if s == "" then d else s

/-- `add_match_to_calendar`: normalize the defaults, duplicate check,
otherwise return the pending artifact; the calendar is never reassigned. -/
def add_match_to_calendar (cal : List CalendarEntry)
    (home_team away_team date time league venue : String) : String × List CalendarEntry :=
  let date := orDefault date "TBD"
  let time := orDefault time "TBD"
  let league := orDefault league "NFL"
  let venue := orDefault venue "TBD"
  if cal.any (calKeyMatches home_team away_team) then
    (alreadyCalMsg home_team away_team, cal)
  else
    (pendingCalMsg home_team away_team date time league venue, cal)

/-- `confirm_add_to_calendar`: duplicate check, otherwise append an entry
whose id is `len(_user_calendar) + 1`. -/
def confirm_add_to_calendar (cal : List CalendarEntry)
    (home_team away_team date time league venue : String) : String × List CalendarEntry :=
  let date := orDefault date "TBD"
  let time := orDefault time "TBD"
  let league := orDefault league "NFL"
  let venue := orDefault venue "TBD"
  if cal.any (calKeyMatches home_team away_team) then
    (alreadyCalMsg home_team away_team, cal)
  else
    let entry : CalendarEntry :=
      { id := cal.length + 1, home_team := home_team, away_team := away_team,
        date := date, time := time, league := league, venue := venue }
    let cal2 := cal ++ [entry]
    (confirmAddCalMsg home_team away_team date time league venue cal2.length, cal2)

/-- `remove_match_from_calendar`: report "not found" for an absent pair,
otherwise return the pending-removal artifact; never reassigns. -/
def remove_match_from_calendar (cal : List CalendarEntry)
    (home_team away_team : String) : String × List CalendarEntry :=
  if cal.any (calKeyMatches home_team away_team) then
    (pendingRemoveCalMsg home_team away_team, cal)
  else
    (calNotFoundMsg home_team away_team, cal)

/-- `confirm_remove_from_calendar`: pop the first matching entry and report
the removal, or report "not found" when the pair is absent. -/
def confirm_remove_from_calendar (cal : List CalendarEntry)
    (home_team away_team : String) : String × List CalendarEntry :=
  if cal.any (calKeyMatches home_team away_team) then
    let cal2 := cal.eraseP (calKeyMatches home_team away_team)
    (confirmRemoveCalMsg home_team away_team cal2.length, cal2)
  else
    (calNotFoundMsg home_team away_team, cal)

/-! ## Response normalizer (`backend/espn_api.py`) -/

/-- The slice of a competitor's `team` dict read by `parse_football_games`
(each field via `get` with an empty-string default). -/
structure RawTeamInfo where
  id : String := ""
  displayName : String := ""
  abbreviation : String := ""
  logo : String := ""
  color : String := ""
deriving Repr, DecidableEq

/-- A competitor object of a scoreboard competition.  `homeAway` is
`c.get("homeAway")`; `score` is `c.get("score")` (absent key and JSON null
both arrive as Python `None`, embedded as `none` / `some JVal.jnull`);
`curatedRankCurrent` is the value of `curatedRank.current` when present
(the code defaults both a missing `curatedRank` dict and a missing
`current` key to `0`); `recordSummaries` lists `records[i]["summary"]`. -/
structure RawCompetitor where
  homeAway : Option String := none
  score : Option JVal := none
  curatedRankCurrent : Option Int := none
  winner : Bool := false
  recordSummaries : List String := []
  team : RawTeamInfo := {}
deriving Repr, DecidableEq

/-- The slice of `competition.status` read by the parser:
`status.type.name` (optional), `status.type.shortDetail`, `status.period`,
`status.displayClock`. -/
structure RawStatus where
  typeName : Option String := none
  shortDetail : String := ""
  period : Int := 0
  displayClock : String := ""
deriving Repr, DecidableEq

/-- One element of `competition.odds`: `details` and `overUnder` with the
parser's defaults. -/
structure RawOdds where
  details : String := ""
  overUnder : JVal := JVal.jstr ""
deriving Repr, DecidableEq

/-- `competition.venue` with `address.city` / `address.state` flattened the
way the `get` chains read them. -/
structure RawVenue where
  fullName : String := ""
  city : String := ""
  state : String := ""
deriving Repr, DecidableEq

/-- A scoreboard competition: the fields `parse_football_games` reads.
`broadcasts` keeps only each broadcast object's `names` list, which is all
the code extracts. -/
structure RawCompetition where
  competitors : List RawCompetitor := []
  status : RawStatus := {}
  odds : List RawOdds := []
  broadcasts : List (List String) := []
  venue : RawVenue := {}
  attendance : Int := 0
  neutralSite : Bool := false
  conferenceCompetition : Bool := false
deriving Repr, DecidableEq

/-- A scoreboard event.  `weekNumber` is `event.week.number` (default 0) and
`seasonType` is `event.season.type` (default 2), flattening the two-level
`get` chains. -/
structure RawEvent where
  id : String := ""
  uid : String := ""
  name : String := ""
  shortName : String := ""
  date : String := ""
  weekNumber : Int := 0
  seasonType : Int := 2
  competitions : List RawCompetition := []
deriving Repr, DecidableEq

/-- A raw scoreboard payload (`scoreboard_data.get("events", [])`). -/
structure RawScoreboard where
  events : List RawEvent := []
deriving Repr, DecidableEq

/-- One side of a normalized game (the `home_team` / `away_team` dicts built
by `parse_football_games`). -/
structure TeamInGame where
  id : String
  name : String
  abbreviation : String
  logo : String
  color : String
  score : Int
  record : String
  rank : Option Int
  winner : Bool
deriving Repr, DecidableEq

/-- The normalized `odds` sub-dict. -/
structure GameOdds where
  spread : String
  over_under : JVal
deriving Repr, DecidableEq

/-- The normalized `venue` sub-dict. -/
structure GameVenue where
  name : String
  city : String
  state : String
deriving Repr, DecidableEq

/-- A normalized game as built by `parse_football_games`. -/
structure Game where
  id : String
  uid : String
  name : String
  short_name : String
  date : String
  week : Int
  season_type : Int
  home_team : TeamInGame
  away_team : TeamInGame
  status : String
  status_detail : String
  period : Int
  clock : String
  venue : GameVenue
  odds : GameOdds
  broadcasts : List String
  attendance : Int
  neutral_site : Bool
  conference_competition : Bool
deriving Repr, DecidableEq

/-- The side-resolution loop of `parse_football_games`: the last competitor
whose `homeAway` equals `"home"` becomes home, the last of the others
becomes away; if either slot stays unset, fall back to positional
assignment `competitors[0]` / `competitors[1]`.  (The Python code treats an
empty competitor dict as falsy too; competitor objects here are structures,
so that degenerate shape is not distinguished.) -/
def resolveSides (cs : List RawCompetitor) : RawCompetitor × RawCompetitor :=
  let home? := cs.foldl (fun acc c => if c.homeAway == some "home" then some c else acc) none
  let away? := cs.foldl (fun acc c => if c.homeAway == some "home" then acc else some c) none
  match home?, away? with
  | some h, some a => (h, a)
  | _, _ => (cs.headD {}, (cs.drop 1).headD {})

/-- The fixed status table of `parse_football_games` (upstream names carry
the `STATUS_` prefix; a missing name defaults to `STATUS_SCHEDULED` before
this function is consulted). -/
def mapStatusName (n : String) : String :=
  if n = "STATUS_FINAL" then "final"
  else if n = "STATUS_IN_PROGRESS" ∨ n = "STATUS_HALFTIME" ∨ n = "STATUS_END_PERIOD" then
    "in_progress"
  else if n = "STATUS_POSTPONED" then "postponed"
  else if n = "STATUS_CANCELED" then "canceled"
  else "scheduled"

/-- `ESPNClient._get_team_record`: the first record's `summary`, else `""`. -/
def getTeamRecord (c : RawCompetitor) : String :=
  c.recordSummaries.headD ""

/-- The per-event body of `parse_football_games`: `none` exactly when the
event is skipped (`continue`) because it has no competitions or fewer than
two competitors in its first competition. -/
def parseFootballEvent (e : RawEvent) : Option Game :=
  match e.competitions.head? with
  | none => none
  | some comp =>
    if comp.competitors.length < 2 then none
    else
      let sides := resolveSides comp.competitors
      let home_team := sides.1
      let away_team := sides.2
      let status_name := comp.status.typeName.getD "STATUS_SCHEDULED"
      let home_score := safe_int home_team.score
      let away_score := safe_int away_team.score
      let odds_data := comp.odds.headD {}
      let home_rank := home_team.curatedRankCurrent.getD 0
      let away_rank := away_team.curatedRankCurrent.getD 0
      some
        { id := e.id
          uid := e.uid
          name := e.name
          short_name := e.shortName
          date := e.date
          week := e.weekNumber
          season_type := e.seasonType
          home_team :=
            { id := home_team.team.id
              name := home_team.team.displayName
              abbreviation := home_team.team.abbreviation
              logo := home_team.team.logo
              color := home_team.team.color
              score := home_score
              record := getTeamRecord home_team
              rank := if home_rank > 0 then some home_rank else none
              winner := home_team.winner }
          away_team :=
            { id := away_team.team.id
              name := away_team.team.displayName
              abbreviation := away_team.team.abbreviation
              logo := away_team.team.logo
              color := away_team.team.color
              score := away_score
              record := getTeamRecord away_team
              rank := if away_rank > 0 then some away_rank else none
              winner := away_team.winner }
          status := mapStatusName status_name
          status_detail := comp.status.shortDetail
          period := comp.status.period
          clock := comp.status.displayClock
          venue := { name := comp.venue.fullName, city := comp.venue.city, state := comp.venue.state }
          odds := { spread := odds_data.details, over_under := odds_data.overUnder }
          broadcasts := comp.broadcasts.flatten
          attendance := comp.attendance
          neutral_site := comp.neutralSite
          conference_competition := comp.conferenceCompetition }

/-- `ESPNClient.parse_football_games`: iterate the events, skipping the ones
`parseFootballEvent` rejects and appending exactly one game for the rest. -/
def parse_football_games (sd : RawScoreboard) : List Game :=
  sd.events.filterMap parseFootballEvent

/-- The guard that decides whether an event survives `parse_football_games`:
a first competition exists and carries at least two competitors. -/
def eventHasTwoCompetitors (e : RawEvent) : Bool :=
  match e.competitions.head? with
  | none => false
  | some comp => decide (2 ≤ comp.competitors.length)

/-! ### Standings (`parse_football_standings` / `_parse_football_standing_entry`) -/

/-- The slice of a standing entry's `team` dict the parser reads.
`displayName` falls back to `name` and then `"Unknown"`; `logos` keeps the
`href` of each logo object. -/
structure RawTeamMeta where
  id : String := ""
  displayName : Option String := none
  name : Option String := none
  abbreviation : String := ""
  logos : List String := []
deriving Repr, DecidableEq

/-- A raw standing entry: `stats` is the list of `(s["name"], s["value"])`
pairs (the Python dict comprehension keeps the LAST binding of a repeated
name); `note` is `note.description` when the `note` dict is present. -/
structure RawStandingEntry where
  team : RawTeamMeta := {}
  stats : List (String × JVal) := []
  note : Option String := none
deriving Repr, DecidableEq

/-- `stats.get(key, default)` over the dict built by the comprehension
(last binding wins, hence the reversed lookup). -/
def statGet (stats : List (String × JVal)) (key : String) (dflt : JVal) : JVal :=
  match stats.reverse.lookup key with
  | some v => v
  | none => dflt

/-- Whether Python `float(value)` succeeds on a stat value (used for the
`win_pct` field, the one coercion in `_parse_football_standing_entry` that
is NOT guarded by `_safe_int` and therefore can raise). -/
def pyFloatOKOf : JVal → Bool
  | JVal.jnull => false
  | JVal.jint _ => true
  | JVal.jstr s => (pyFloatTrunc s).isSome

/-- A normalized standing entry as built by `_parse_football_standing_entry`.
`win_pct_raw` and `streak_raw` carry the raw stat values: `win_pct` is
coerced by a bare `float(...)` in Python (its numeric value is not consumed
by any property below) and `streak` is passed through uncoerced. -/
structure FootballStanding where
  team_id : String
  team : String
  abbreviation : String
  logo : String
  conference : String
  division : String
  rank : Int
  wins : Int
  losses : Int
  ties : Int
  win_pct_raw : JVal
  points_for : Int
  points_against : Int
  point_diff : Int
  conference_wins : Int
  conference_losses : Int
  division_wins : Int
  division_losses : Int
  home_wins : Int
  home_losses : Int
  away_wins : Int
  away_losses : Int
  streak_raw : JVal
  clinched : String
deriving Repr, DecidableEq

/-- `ESPNClient._parse_football_standing_entry`.  Returns `none` exactly when
the bare `float(stats.get("winPercent", 0))` coercion would raise (the
enclosing service methods catch that exception).  The `rank` field is the
Python expression `_safe_int(stats.get("rank", 0)) or
_safe_int(stats.get("playoffSeed", 0))`: the `or` falls through to the
playoff seed when the rank stat coerces to `0`. -/
def parseFootballStandingEntry (entry : RawStandingEntry) (conference division : String) :
    Option FootballStanding :=
  let team := entry.team
  let stats := entry.stats
  if pyFloatOKOf (statGet stats "winPercent" (JVal.jint 0)) then
    let r1 := safe_intV (statGet stats "rank" (JVal.jint 0))
    let r2 := safe_intV (statGet stats "playoffSeed" (JVal.jint 0))
    some
      { team_id := team.id
        team := team.displayName.getD (team.name.getD "Unknown")
        abbreviation := team.abbreviation
        logo := team.logos.headD ""
        conference := conference
        division := division
        rank := if r1 ≠ 0 then r1 else r2
        wins := safe_intV (statGet stats "wins" (JVal.jint 0))
        losses := safe_intV (statGet stats "losses" (JVal.jint 0))
        ties := safe_intV (statGet stats "ties" (JVal.jint 0))
        win_pct_raw := statGet stats "winPercent" (JVal.jint 0)
        points_for := safe_intV (statGet stats "pointsFor" (JVal.jint 0))
        points_against := safe_intV (statGet stats "pointsAgainst" (JVal.jint 0))
        point_diff := safe_intV (statGet stats "pointDifferential" (JVal.jint 0))
        conference_wins := safe_intV (statGet stats "vsConf_wins" (JVal.jint 0))
        conference_losses := safe_intV (statGet stats "vsConf_losses" (JVal.jint 0))
        division_wins := safe_intV (statGet stats "divisionWins" (statGet stats "vsDiv_wins" (JVal.jint 0)))
        division_losses := safe_intV (statGet stats "divisionLosses" (statGet stats "vsDiv_losses" (JVal.jint 0)))
        home_wins := safe_intV (statGet stats "homeWins" (statGet stats "Home_wins" (JVal.jint 0)))
        home_losses := safe_intV (statGet stats "homeLosses" (statGet stats "Home_losses" (JVal.jint 0)))
        away_wins := safe_intV (statGet stats "roadWins" (statGet stats "Road_wins" (JVal.jint 0)))
        away_losses := safe_intV (statGet stats "roadLosses" (statGet stats "Road_losses" (JVal.jint 0)))
        streak_raw := statGet stats "streak" (JVal.jstr "")
        clinched := entry.note.getD "" }
  else
    none

/-- A division subgroup of a grouped standings payload. -/
structure RawStandSubgroup where
  name : String := ""
  entries : List RawStandingEntry := []
deriving Repr, DecidableEq

/-- A conference group: its own `standings.entries` are used only when it
has no division children. -/
structure RawStandGroup where
  name : String := ""
  children : List RawStandSubgroup := []
  entries : List RawStandingEntry := []
deriving Repr, DecidableEq

/-- A raw standings payload: grouped `children`, or the flat
`standings.entries` shape when `children` is empty. -/
structure RawStandingsData where
  children : List RawStandGroup := []
  entries : List RawStandingEntry := []
deriving Repr, DecidableEq

/-- The traversal order of `parse_football_standings`: each entry paired
with the conference/division labels it is tagged with (two-level, one-level
and flat shapes). -/
def standingTriples (d : RawStandingsData) : List (RawStandingEntry × String × String) :=
  (d.children.flatMap fun g =>
    if g.children.isEmpty then
      g.entries.map fun e => (e, g.name, "")
    else
      g.children.flatMap fun sg => sg.entries.map fun e => (e, g.name, sg.name))
  ++ (if d.children.isEmpty then d.entries.map fun e => (e, "", "") else [])

/-- `ESPNClient.parse_football_standings`, exception-aware: `none` when some
entry makes `_parse_football_standing_entry` raise. -/
def parse_football_standingsE (d : RawStandingsData) : Option (List FootballStanding) :=
  (standingTriples d).mapM fun t => parseFootballStandingEntry t.1 t.2.1 t.2.2

/-! ## Domain service (`backend/football_data.py`) -/

/-- The status-filter test of `FootballDataService.get_matches`: the three
`continue` checks guarding a game, given the caller's `status` argument and
the game's normalized status. -/
def matchStatusAccept (status game_status : String) : Bool :=
  if status = "live" ∧ game_status ≠ "in_progress" then false
  else if status = "finished" ∧ game_status ≠ "final" then false
  else if status = "scheduled" ∧ game_status ≠ "scheduled" then false
  else true

/-- A `LeagueStanding` model instance as built by `get_league_standings`. -/
structure LeagueStanding where
  position : Int
  team : String
  played : Int
  won : Int
  drawn : Int
  lost : Int
  goals_for : Int
  goals_against : Int
  goal_difference : Int
  points : Int
deriving Repr, DecidableEq

/-- The conversion of one parsed standing entry inside the
`get_league_standings` loop; `i` is the entry's index in the parsed list and
feeds the `or i + 1` fallback of the provisional position. -/
def toLeagueStanding (i : Nat) (s : FootballStanding) : LeagueStanding :=
  { position := if s.rank ≠ 0 then s.rank else (i : Int) + 1
    team := s.team
    played := s.wins + s.losses + s.ties
    won := s.wins
    drawn := s.ties
    lost := s.losses
    goals_for := s.points_for
    goals_against := s.points_against
    goal_difference := s.point_diff
    points := s.wins }

/-- The Python sort key `(-x.won, -x.goal_difference)` as a boolean total
preorder: `a` sorts no later than `b`. -/
def standingKeyLE (a b : LeagueStanding) : Bool :=
  decide (b.won < a.won) ||
    (decide (a.won = b.won) && decide (b.goal_difference ≤ a.goal_difference))

/-- The conference filter of `get_league_standings`: keep `s` unless a
non-empty conference argument is NOT a case-insensitive substring of the
entry's conference.  (Python's `Optional[str]` with `if conference:` makes
`None` and `""` behave alike; both are embedded as `""`.) -/
def confKeep (conference : String) (s : FootballStanding) : Bool :=
  conference == "" || strHasB (pyLower s.conference) (pyLower conference)

/-- `FootballDataService.get_league_standings`: parse (an exception from the
entry parser is caught and yields `[]`), filter by conference, convert,
sort stably by (wins desc, point differential desc) and renumber the
positions `1..N`.  Python's `list.sort` and `List.mergeSort` are both
stable sorts of the same total preorder. -/
def get_league_standings (d : RawStandingsData) (conference : String) : List LeagueStanding :=
  match parse_football_standingsE d with
  | none => []
  | some parsed =>
    if parsed.isEmpty then []
    else
      let pre := parsed.enum.filterMap fun p =>
        if confKeep conference p.2 then some (toLeagueStanding p.1 p.2) else none
      let sorted := pre.mergeSort standingKeyLE
      sorted.enum.map fun p => { p.2 with position := (p.1 : Int) + 1 }

/-! ## Spec-side comparison definitions and concrete payloads -/

/-- Modelled from the spec's words for comparison with the code path: "scores
default to null, not 0, when absent, but become 0 once any numeric parse is
attempted on a non-null-but-unparseable value".  An absent or JSON-null
score field maps to `none`; a present unparseable value maps to `some 0`;
a parseable value maps to its parsed value. -/
def scorePerSpec : Option JVal → Option Int
  | none => none
  | some JVal.jnull => none
  | some (JVal.jint n) => some n
  | some (JVal.jstr s) => some ((pyFloatTrunc s).getD 0)

/-- Modelled from the spec's words for comparison with the code path: "Rank
fields of 0 are treated as no rank and surfaced as null" applied to a
standing entry's stats (scenario C: rank stat 0 and no `playoffSeed` give a
null rank). -/
def standingRankPerSpec (stats : List (String × JVal)) : Option Int :=
  let r1 := safe_intV (statGet stats "rank" (JVal.jint 0))
  let r2 := safe_intV (statGet stats "playoffSeed" (JVal.jint 0))
  let v := if r1 ≠ 0 then r1 else r2
  if v = 0 then none else some v

/-- A concrete stand-in for Python's seeded `hash` builtin, used to
instantiate `pyHash` in closed statements. -/
def hashZero : String → Int := fun _ => 0

/-- A concrete scoreboard competition: the home side's `score` key is
absent, the away side's score is the unparseable string `"N/A"`, the home
side's curated rank is present and `0`, and the odds `details` (spread)
field is the text `"N/A"`. -/
def sdNAComp : RawCompetition :=
  { competitors :=
      [ { homeAway := some "home", score := none, curatedRankCurrent := some 0,
          team := { displayName := "Kansas City Chiefs" } },
        { homeAway := some "away", score := some (JVal.jstr "N/A"),
          team := { displayName := "Denver Broncos" } } ],
    odds := [ { details := "N/A" } ] }

/-- The event wrapping `sdNAComp`. -/
def sdNAEvent : RawEvent :=
  { id := "401547417", name := "Denver Broncos at Kansas City Chiefs",
    competitions := [sdNAComp] }

/-- The scoreboard payload wrapping `sdNAEvent`. -/
def sdNA : RawScoreboard := { events := [sdNAEvent] }

/-- The single game `parse_football_games` produces from `sdNA`. -/
def sdNAGame : Game := (parseFootballEvent sdNAEvent).get (by decide)

/-- A concrete raw standing entry whose `rank` stat is `0` with no
`playoffSeed` stat present (spec scenario C). -/
def entry0 : RawStandingEntry :=
  { team := { displayName := some "Carolina Panthers" },
    stats := [("rank", JVal.jint 0), ("wins", JVal.jint 4), ("losses", JVal.jint 3)] }

/-- The normalized standing entry produced from `entry0`. -/
def entry0St : FootballStanding := (parseFootballStandingEntry entry0 "" "").get (by decide)

/-- A concrete standing entry with 1 win (sorts below `standEntryB`). -/
def standEntryA : RawStandingEntry :=
  { team := { displayName := some "Alpha" },
    stats := [("rank", JVal.jint 1), ("wins", JVal.jint 1), ("losses", JVal.jint 5),
              ("pointDifferential", JVal.jint (-30)), ("winPercent", JVal.jstr "0.167")] }

/-- A concrete standing entry with 3 wins (sorts above `standEntryA`). -/
def standEntryB : RawStandingEntry :=
  { team := { displayName := some "Beta" },
    stats := [("rank", JVal.jint 2), ("wins", JVal.jint 3), ("losses", JVal.jint 3),
              ("pointDifferential", JVal.jint 12), ("winPercent", JVal.jstr "0.5")] }

/-- A flat-shape standings payload listing `standEntryA` before
`standEntryB` (upstream rank order), which the sorting must reverse. -/
def d9 : RawStandingsData := { entries := [standEntryA, standEntryB] }

/-- The projection of a `LeagueStanding` onto every field except the
renumbered `position`. -/
def standingCore (s : LeagueStanding) :
    String × Int × Int × Int × Int × Int × Int × Int × Int :=
  (s.team, s.played, s.won, s.drawn, s.lost, s.goals_for, s.goals_against,
    s.goal_difference, s.points)

/-! ## Helper lemmas -/

theorem charsHave_iff (sub s : List Char) : charsHave sub s = true ↔ sub <:+: s := by
  induction s with
  | nil =>
    simp [charsHave, List.isEmpty_iff, List.infix_nil]
  | cons c t ih =>
    simp [charsHave, Bool.or_eq_true, List.isPrefixOf_iff_prefix, ih, List.infix_cons_iff]

theorem strHasB_iff (s sub : String) : strHasB s sub = true ↔ sub.data <:+: s.data :=
  charsHave_iff sub.data s.data

theorem strHasB_self (s : String) : strHasB s s = true :=
  (strHasB_iff s s).mpr (List.infix_refl s.data)

theorem strHasB_append_left (s t sub : String) (h : strHasB s sub = true) :
    strHasB (s ++ t) sub = true := by
  rw [strHasB_iff] at h ⊢
  rw [String.data_append]
  obtain ⟨u, v, huv⟩ := h
  exact ⟨u, v ++ t.data, by simp [← huv]⟩

theorem strHasB_append_right (s t sub : String) (h : strHasB t sub = true) :
    strHasB (s ++ t) sub = true := by
  rw [strHasB_iff] at h ⊢
  rw [String.data_append]
  obtain ⟨u, v, huv⟩ := h
  exact ⟨s.data ++ u, v, by simp [← huv]⟩

theorem length_filterMap_eq_countP {α β : Type} (f : α → Option β) (l : List α) :
    (l.filterMap f).length = l.countP fun a => (f a).isSome := by
  induction l with
  | nil => rfl
  | cons a t ih =>
    cases hfa : f a <;>
      simp [List.filterMap_cons, hfa, List.countP_cons, ih, Nat.add_comm]

theorem parseFootballEvent_isSome (e : RawEvent) :
    (parseFootballEvent e).isSome = eventHasTwoCompetitors e := by
  unfold parseFootballEvent eventHasTwoCompetitors
  cases e.competitions.head? with
  | none => rfl
  | some comp =>
    by_cases h : comp.competitors.length < 2 <;> simp [h] <;> omega

theorem standingKeyLE_trans (a b c : LeagueStanding)
    (hab : standingKeyLE a b = true) (hbc : standingKeyLE b c = true) :
    standingKeyLE a c = true := by
  simp only [standingKeyLE, Bool.or_eq_true, Bool.and_eq_true, decide_eq_true_eq] at hab hbc ⊢
  omega

theorem standingKeyLE_total (a b : LeagueStanding) :
    (standingKeyLE a b || standingKeyLE b a) = true := by
  simp only [standingKeyLE, Bool.or_eq_true, Bool.and_eq_true, decide_eq_true_eq]
  omega

/-- C5: for every raw scoreboard payload, an event with no competitions or
with fewer than two competitors in its first competition is absent from the
output of `parse_football_games`, and every event with at least two
competitors contributes exactly one normalized game: the output length is
the count of events passing the two-competitor guard. -/
theorem c5_skip_short_events (sd : RawScoreboard) :
    (parse_football_games sd).length = sd.events.countP eventHasTwoCompetitors := by
  unfold parse_football_games
  rw [length_filterMap_eq_countP]
  have h : (fun a => (parseFootballEvent a).isSome) = eventHasTwoCompetitors :=
    funext parseFootballEvent_isSome
  rw [h]

/-- C6: the normalizer's status table maps the upstream status-type names
STATUS_FINAL to final, STATUS_IN_PROGRESS / STATUS_HALFTIME /
STATUS_END_PERIOD to in_progress, STATUS_POSTPONED to postponed,
STATUS_CANCELED to canceled and anything else to scheduled; and the status
filter of `get_matches` accepts a game under "finished" iff its normalized
status is final, under "live" iff in_progress, and under "scheduled" iff
scheduled. -/
theorem c6_status_tables (n g : String)
    (hn1 : n ≠ "STATUS_FINAL") (hn2 : n ≠ "STATUS_IN_PROGRESS")
    (hn3 : n ≠ "STATUS_HALFTIME") (hn4 : n ≠ "STATUS_END_PERIOD")
    (hn5 : n ≠ "STATUS_POSTPONED") (hn6 : n ≠ "STATUS_CANCELED") :
    mapStatusName "STATUS_FINAL" = "final" ∧
    mapStatusName "STATUS_IN_PROGRESS" = "in_progress" ∧
    mapStatusName "STATUS_HALFTIME" = "in_progress" ∧
    mapStatusName "STATUS_END_PERIOD" = "in_progress" ∧
    mapStatusName "STATUS_POSTPONED" = "postponed" ∧
    mapStatusName "STATUS_CANCELED" = "canceled" ∧
    mapStatusName n = "scheduled" ∧
    matchStatusAccept "finished" g = decide (g = "final") ∧
    matchStatusAccept "live" g = decide (g = "in_progress") ∧
    matchStatusAccept "scheduled" g = decide (g = "scheduled") := by
  refine ⟨by decide, by decide, by decide, by decide, by decide, by decide, ?_, ?_, ?_, ?_⟩
  · simp [mapStatusName, hn1, hn2, hn3, hn4, hn5, hn6]
  · by_cases hg : g = "final"
    · subst hg; decide
    · simp [matchStatusAccept, hg]
  · by_cases hg : g = "in_progress"
    · subst hg; decide
    · simp [matchStatusAccept, hg]
  · by_cases hg : g = "scheduled"
    · subst hg; decide
    · simp [matchStatusAccept, hg]

/-- Instantiation of the C6 theorem at a status name outside the table and a
concrete game status. -/
theorem c6_status_tables_witness :
    mapStatusName "STATUS_FINAL" = "final" ∧
    mapStatusName "STATUS_IN_PROGRESS" = "in_progress" ∧
    mapStatusName "STATUS_HALFTIME" = "in_progress" ∧
    mapStatusName "STATUS_END_PERIOD" = "in_progress" ∧
    mapStatusName "STATUS_POSTPONED" = "postponed" ∧
    mapStatusName "STATUS_CANCELED" = "canceled" ∧
    mapStatusName "STATUS_RAIN_DELAY" = "scheduled" ∧
    matchStatusAccept "finished" "in_progress" = decide ("in_progress" = "final") ∧
    matchStatusAccept "live" "in_progress" = decide ("in_progress" = "in_progress") ∧
    matchStatusAccept "scheduled" "in_progress" = decide ("in_progress" = "scheduled") :=
  c6_status_tables "STATUS_RAIN_DELAY" "in_progress"
    (by decide) (by decide) (by decide) (by decide) (by decide) (by decide)

/-- C10: a confirmed calendar entry receives id `len(_user_calendar) + 1`
(not a monotonic counter), so after confirm-adding two games,
confirm-removing the first and confirm-adding a third, two distinct
calendar entries carry the same id 2. -/
theorem c10_calendar_id_reuse (cal : List CalendarEntry) (h a d t lg v : String)
    (hC : cal.any (calKeyMatches h a) = false) :
    ((confirm_add_to_calendar cal h a d t lg v).2.map fun m => m.id)
      = (cal.map fun m => m.id) ++ [cal.length + 1] ∧
    ((confirm_add_to_calendar
        (confirm_remove_from_calendar
          (confirm_add_to_calendar
            ((confirm_add_to_calendar [] "Chiefs" "Broncos" "" "" "" "").2)
            "Eagles" "Cowboys" "" "" "" "").2
          "Chiefs" "Broncos").2
        "Packers" "Bears" "" "" "" "").2.map fun m => (m.id, m.home_team))
      = [(2, "Eagles"), (2, "Packers")] := by
  constructor
  · simp [confirm_add_to_calendar, hC]
  · decide

/-- Instantiation of the C10 theorem on the empty calendar. -/
theorem c10_calendar_id_reuse_witness :
    (([] : List CalendarEntry).any (calKeyMatches "Chiefs" "Broncos") = false) ∧
    ((confirm_add_to_calendar ([] : List CalendarEntry) "Chiefs" "Broncos" "" "" "" "").2.map
        fun m => m.id)
      = (([] : List CalendarEntry).map fun m => m.id) ++ [([] : List CalendarEntry).length + 1] :=
  ⟨by decide,
    (c10_calendar_id_reuse [] "Chiefs" "Broncos" "" "" "" "" (by decide)).1⟩

/-- C1: for every natural-key input and every collection state, the six
propose operations never change their collection, and for a new add
proposal (key not yet present) the returned artifact carries the
appropriate PENDING action marker together with the entity's fields, the
collection being left unchanged. -/
theorem c1_propose_read_only (pyHash : String → Int)
    (teams : List TeamEntry) (players : List PlayerEntry) (cal : List CalendarEntry)
    (tname tleague pname pteam ppos hteam ateam date time lg venue rtname rpname rh ra : String)
    (hT : teams.any (teamKeyMatches tname) = false)
    (hP : players.any (playerKeyMatches pname) = false)
    (hC : cal.any (calKeyMatches hteam ateam) = false) :
    (add_team_to_favorites pyHash teams tname tleague).2 = teams ∧
    (remove_team_from_favorites pyHash teams rtname).2 = teams ∧
    (add_player_to_favorites pyHash players pname pteam ppos).2 = players ∧
    (remove_player_from_favorites pyHash players rpname).2 = players ∧
    (add_match_to_calendar cal hteam ateam date time lg venue).2 = cal ∧
    (remove_match_from_calendar cal rh ra).2 = cal ∧
    strHasB (add_team_to_favorites pyHash teams tname tleague).1 "PENDING_FAVORITE_TEAM" = true ∧
    strHasB (add_team_to_favorites pyHash teams tname tleague).1 tname = true ∧
    strHasB (add_team_to_favorites pyHash teams tname tleague).1 tleague = true ∧
    strHasB (add_player_to_favorites pyHash players pname pteam ppos).1 "PENDING_FAVORITE_PLAYER" = true ∧
    strHasB (add_player_to_favorites pyHash players pname pteam ppos).1 pname = true ∧
    strHasB (add_match_to_calendar cal hteam ateam date time lg venue).1 "PENDING_APPROVAL" = true ∧
    strHasB (add_match_to_calendar cal hteam ateam date time lg venue).1 hteam = true ∧
    strHasB (add_match_to_calendar cal hteam ateam date time lg venue).1 ateam = true := by
  have hTeamMsg : (add_team_to_favorites pyHash teams tname tleague).1
      = pendingTeamMsg tname tleague (natIdOf pyHash tname) := by
    simp [add_team_to_favorites, hT]
  have hPlayerMsg : (add_player_to_favorites pyHash players pname pteam ppos).1
      = pendingPlayerMsg pname pteam ppos (natIdOf pyHash pname) := by
    simp [add_player_to_favorites, hP]
  have hCalMsg : (add_match_to_calendar cal hteam ateam date time lg venue).1
      = pendingCalMsg hteam ateam (orDefault date "TBD") (orDefault time "TBD")
          (orDefault lg "NFL") (orDefault venue "TBD") := by
    simp [add_match_to_calendar, hC]
  refine ⟨?_, ?_, ?_, ?_, ?_, ?_, ?_, ?_, ?_, ?_, ?_, ?_, ?_, ?_⟩
  · by_cases h : teams.any (teamKeyMatches tname) = true <;> simp [add_team_to_favorites, h]
  · simp [remove_team_from_favorites]
  · by_cases h : players.any (playerKeyMatches pname) = true <;> simp [add_player_to_favorites, h]
  · simp [remove_player_from_favorites]
  · by_cases h : cal.any (calKeyMatches hteam ateam) = true <;> simp [add_match_to_calendar, h]
  · by_cases h : cal.any (calKeyMatches rh ra) = true <;> simp [remove_match_from_calendar, h]
  · rw [hTeamMsg]
    simp only [pendingTeamMsg]
    iterate 6 apply strHasB_append_left
    apply strHasB_append_right
    decide
  · rw [hTeamMsg]
    simp only [pendingTeamMsg]
    iterate 3 apply strHasB_append_left
    apply strHasB_append_right
    exact strHasB_self tname
  · rw [hTeamMsg]
    simp only [pendingTeamMsg]
    iterate 1 apply strHasB_append_left
    apply strHasB_append_right
    exact strHasB_self tleague
  · rw [hPlayerMsg]
    simp only [pendingPlayerMsg]
    iterate 8 apply strHasB_append_left
    apply strHasB_append_right
    decide
  · rw [hPlayerMsg]
    simp only [pendingPlayerMsg]
    iterate 5 apply strHasB_append_left
    apply strHasB_append_right
    exact strHasB_self pname
  · rw [hCalMsg]
    simp only [pendingCalMsg]
    iterate 12 apply strHasB_append_left
    apply strHasB_append_right
    decide
  · rw [hCalMsg]
    simp only [pendingCalMsg]
    iterate 11 apply strHasB_append_left
    apply strHasB_append_right
    exact strHasB_self hteam
  · rw [hCalMsg]
    simp only [pendingCalMsg]
    iterate 9 apply strHasB_append_left
    apply strHasB_append_right
    exact strHasB_self ateam

/-- Instantiation of the C1 theorem on empty collections with concrete
names. -/
theorem c1_propose_read_only_witness :
    (add_team_to_favorites hashZero [] "Kansas City Chiefs" "NFL").2 = [] ∧
    (remove_team_from_favorites hashZero [] "Broncos").2 = [] ∧
    (add_player_to_favorites hashZero [] "Patrick Mahomes" "Kansas City Chiefs" "QB").2 = [] ∧
    (remove_player_from_favorites hashZero [] "Travis Kelce").2 = [] ∧
    (add_match_to_calendar [] "Chiefs" "Broncos" "" "" "" "").2 = [] ∧
    (remove_match_from_calendar [] "Raiders" "Chargers").2 = [] ∧
    strHasB (add_team_to_favorites hashZero [] "Kansas City Chiefs" "NFL").1 "PENDING_FAVORITE_TEAM" = true ∧
    strHasB (add_team_to_favorites hashZero [] "Kansas City Chiefs" "NFL").1 "Kansas City Chiefs" = true ∧
    strHasB (add_team_to_favorites hashZero [] "Kansas City Chiefs" "NFL").1 "NFL" = true ∧
    strHasB (add_player_to_favorites hashZero [] "Patrick Mahomes" "Kansas City Chiefs" "QB").1 "PENDING_FAVORITE_PLAYER" = true ∧
    strHasB (add_player_to_favorites hashZero [] "Patrick Mahomes" "Kansas City Chiefs" "QB").1 "Patrick Mahomes" = true ∧
    strHasB (add_match_to_calendar [] "Chiefs" "Broncos" "" "" "" "").1 "PENDING_APPROVAL" = true ∧
    strHasB (add_match_to_calendar [] "Chiefs" "Broncos" "" "" "" "").1 "Chiefs" = true ∧
    strHasB (add_match_to_calendar [] "Chiefs" "Broncos" "" "" "" "").1 "Broncos" = true :=
  c1_propose_read_only hashZero [] [] []
    "Kansas City Chiefs" "NFL" "Patrick Mahomes" "Kansas City Chiefs" "QB"
    "Chiefs" "Broncos" "" "" "" "" "Broncos" "Travis Kelce" "Raiders" "Chargers"
    (by decide) (by decide) (by decide)

/-- C2: confirming the same add twice (same case-insensitive natural key)
leaves exactly one entry for that key, and the second call answers with
"already" while leaving the collection untouched — for favorite teams and
for calendar pairs. -/
theorem c2_confirm_add_idempotent (pyHash : String → Int)
    (teams : List TeamEntry) (name name2 league league2 : String)
    (cal : List CalendarEntry) (h1 a1 h2 a2 date time lg venue : String)
    (hT : teams.countP (teamKeyMatches name) ≤ 1)
    (hTn : pyLower name2 = pyLower name)
    (hC : cal.countP (calKeyMatches h1 a1) ≤ 1)
    (hCh : pyLower h2 = pyLower h1) (hCa : pyLower a2 = pyLower a1) :
    ((confirm_add_favorite_team pyHash teams name league).2.countP (teamKeyMatches name) = 1) ∧
    strHasB (confirm_add_favorite_team pyHash
        ((confirm_add_favorite_team pyHash teams name league).2) name2 league2).1 "already" = true ∧
    (confirm_add_favorite_team pyHash
        ((confirm_add_favorite_team pyHash teams name league).2) name2 league2).2
      = (confirm_add_favorite_team pyHash teams name league).2 ∧
    ((confirm_add_to_calendar cal h1 a1 date time lg venue).2.countP (calKeyMatches h1 a1) = 1) ∧
    strHasB (confirm_add_to_calendar
        ((confirm_add_to_calendar cal h1 a1 date time lg venue).2) h2 a2 date time lg venue).1
      "already" = true ∧
    (confirm_add_to_calendar
        ((confirm_add_to_calendar cal h1 a1 date time lg venue).2) h2 a2 date time lg venue).2
      = (confirm_add_to_calendar cal h1 a1 date time lg venue).2 := by
  have hkeyT : teamKeyMatches name2 = teamKeyMatches name := by
    funext x; simp [teamKeyMatches, hTn]
  have hkeyC : calKeyMatches h2 a2 = calKeyMatches h1 a1 := by
    funext x; simp [calKeyMatches, hCh, hCa]
  have teamPack : ((confirm_add_favorite_team pyHash teams name league).2.countP
        (teamKeyMatches name) = 1)
      ∧ (confirm_add_favorite_team pyHash teams name league).2.any (teamKeyMatches name) = true := by
    by_cases hAny : teams.any (teamKeyMatches name) = true
    · have hs1 : (confirm_add_favorite_team pyHash teams name league).2 = teams := by
        simp [confirm_add_favorite_team, hAny]
      rw [hs1]
      refine ⟨?_, hAny⟩
      rcases List.any_eq_true.mp hAny with ⟨x, hx, hpx⟩
      have hpos : 0 < teams.countP (teamKeyMatches name) := List.countP_pos.mpr ⟨x, hx, hpx⟩
      omega
    · have hAny0 : teams.any (teamKeyMatches name) = false := by
        simpa using hAny
      have hs1 : (confirm_add_favorite_team pyHash teams name league).2
          = teams ++ [{ id := natIdOf pyHash name, name := name, league := league }] := by
        simp [confirm_add_favorite_team, hAny0]
      have hcount0 : teams.countP (teamKeyMatches name) = 0 := by
        rw [List.countP_eq_zero]
        intro x hx
        have hfx := List.any_eq_false.mp hAny0 x hx
        simpa using hfx
      have hmatch : teamKeyMatches name
          { id := natIdOf pyHash name, name := name, league := league } = true := by
        simp [teamKeyMatches]
      rw [hs1]
      constructor
      · rw [List.countP_append, hcount0]
        simp [List.countP_cons, hmatch]
      · rw [List.any_append]
        simp [hmatch]
  have calPack : ((confirm_add_to_calendar cal h1 a1 date time lg venue).2.countP
        (calKeyMatches h1 a1) = 1)
      ∧ (confirm_add_to_calendar cal h1 a1 date time lg venue).2.any
          (calKeyMatches h1 a1) = true := by
    by_cases hAny : cal.any (calKeyMatches h1 a1) = true
    · have hs1 : (confirm_add_to_calendar cal h1 a1 date time lg venue).2 = cal := by
        simp [confirm_add_to_calendar, hAny]
      rw [hs1]
      refine ⟨?_, hAny⟩
      rcases List.any_eq_true.mp hAny with ⟨x, hx, hpx⟩
      have hpos : 0 < cal.countP (calKeyMatches h1 a1) := List.countP_pos.mpr ⟨x, hx, hpx⟩
      omega
    · have hAny0 : cal.any (calKeyMatches h1 a1) = false := by
        simpa using hAny
      have hs1 : (confirm_add_to_calendar cal h1 a1 date time lg venue).2
          = cal ++ [{ id := cal.length + 1, home_team := h1, away_team := a1, date := orDefault date "TBD", time := orDefault time "TBD", league := orDefault lg "NFL", venue := orDefault venue "TBD" }] := by
        simp [confirm_add_to_calendar, hAny0]
      have hcount0 : cal.countP (calKeyMatches h1 a1) = 0 := by
        rw [List.countP_eq_zero]
        intro x hx
        have hfx := List.any_eq_false.mp hAny0 x hx
        simpa using hfx
      have hmatch : calKeyMatches h1 a1 { id := cal.length + 1, home_team := h1, away_team := a1, date := orDefault date "TBD", time := orDefault time "TBD", league := orDefault lg "NFL", venue := orDefault venue "TBD" } = true := by
        simp [calKeyMatches]
      rw [hs1]
      constructor
      · rw [List.countP_append, hcount0]
        simp [List.countP_cons, hmatch]
      · rw [List.any_append]
        simp [hmatch]
  have secondTgen : ∀ s1 : List TeamEntry, s1.any (teamKeyMatches name2) = true →
      confirm_add_favorite_team pyHash s1 name2 league2 = (alreadyFavMsg name2, s1) := by
    intro s1 hs
    simp [confirm_add_favorite_team, hs]
  have secondCgen : ∀ s1 : List CalendarEntry, s1.any (calKeyMatches h2 a2) = true →
      confirm_add_to_calendar s1 h2 a2 date time lg venue = (alreadyCalMsg h2 a2, s1) := by
    intro s1 hs
    simp [confirm_add_to_calendar, hs]
  have secondT := secondTgen ((confirm_add_favorite_team pyHash teams name league).2)
    (by rw [hkeyT]; exact teamPack.2)
  have secondC := secondCgen ((confirm_add_to_calendar cal h1 a1 date time lg venue).2)
    (by rw [hkeyC]; exact calPack.2)
  refine ⟨teamPack.1, ?_, ?_, calPack.1, ?_, ?_⟩
  · rw [secondT]
    simp only [alreadyFavMsg]
    apply strHasB_append_right
    decide
  · rw [secondT]
  · rw [secondC]
    simp only [alreadyCalMsg]
    apply strHasB_append_right
    decide
  · rw [secondC]

/-- Instantiation of the C2 theorem on empty collections, the second call
varying the key's case. -/
theorem c2_confirm_add_idempotent_witness :
    ((confirm_add_favorite_team hashZero [] "Raiders" "NFL").2.countP
        (teamKeyMatches "Raiders") = 1) ∧
    strHasB (confirm_add_favorite_team hashZero
        ((confirm_add_favorite_team hashZero [] "Raiders" "NFL").2) "RAIDERS" "NFL").1
      "already" = true ∧
    (confirm_add_favorite_team hashZero
        ((confirm_add_favorite_team hashZero [] "Raiders" "NFL").2) "RAIDERS" "NFL").2
      = (confirm_add_favorite_team hashZero [] "Raiders" "NFL").2 ∧
    ((confirm_add_to_calendar [] "Chiefs" "Broncos" "" "" "" "").2.countP
        (calKeyMatches "Chiefs" "Broncos") = 1) ∧
    strHasB (confirm_add_to_calendar
        ((confirm_add_to_calendar [] "Chiefs" "Broncos" "" "" "" "").2)
        "CHIEFS" "broncos" "" "" "" "").1 "already" = true ∧
    (confirm_add_to_calendar
        ((confirm_add_to_calendar [] "Chiefs" "Broncos" "" "" "" "").2)
        "CHIEFS" "broncos" "" "" "" "").2
      = (confirm_add_to_calendar [] "Chiefs" "Broncos" "" "" "" "").2 :=
  c2_confirm_add_idempotent hashZero [] "Raiders" "RAIDERS" "NFL" "NFL"
    [] "Chiefs" "Broncos" "CHIEFS" "broncos" "" "" "" ""
    (by decide) (by decide) (by decide) (by decide) (by decide)

/-- C3 counterexample: with an empty favorites collection (so the team
"Broncos" is absent), `confirm_remove_favorite_team` leaves the collection
unchanged but its message does NOT contain "not found" — it announces a
removal — and the propose-remove message does not contain "not found"
either; this refutes the claim that both calls report "not found" for
every entity kind. -/
theorem c3_counterexample :
    (confirm_remove_favorite_team hashZero [] "Broncos").2 = [] ∧
    strHasB (confirm_remove_favorite_team hashZero [] "Broncos").1 "not found" = false ∧
    strHasB (remove_team_from_favorites hashZero [] "Broncos").1 "not found" = false ∧
    strHasB (confirm_remove_favorite_team hashZero [] "Broncos").1 "removed" = true := by
  decide

/-- C3 amended: for an entity absent from its collection, propose-remove and
confirm-remove never mutate any of the three collections; the CALENDAR
calls both report "not found", while the favorite-team and favorite-player
confirm-remove calls report a removal and the propose-remove calls return a
pending-removal artifact instead. -/
theorem c3_absent_remove_behavior (pyHash : String → Int)
    (teams : List TeamEntry) (players : List PlayerEntry) (cal : List CalendarEntry)
    (tname pname hteam ateam : String)
    (hT : teams.any (teamKeyMatches tname) = false)
    (hP : players.any (playerKeyMatches pname) = false)
    (hC : cal.any (calKeyMatches hteam ateam) = false) :
    (remove_team_from_favorites pyHash teams tname).2 = teams ∧
    (confirm_remove_favorite_team pyHash teams tname).2 = teams ∧
    (remove_player_from_favorites pyHash players pname).2 = players ∧
    (confirm_remove_favorite_player pyHash players pname).2 = players ∧
    (remove_match_from_calendar cal hteam ateam).2 = cal ∧
    (confirm_remove_from_calendar cal hteam ateam).2 = cal ∧
    strHasB (remove_match_from_calendar cal hteam ateam).1 "not found" = true ∧
    strHasB (confirm_remove_from_calendar cal hteam ateam).1 "not found" = true ∧
    strHasB (confirm_remove_favorite_team pyHash teams tname).1 "removed" = true ∧
    strHasB (confirm_remove_favorite_player pyHash players pname).1 "removed" = true ∧
    strHasB (remove_team_from_favorites pyHash teams tname).1 "PENDING_REMOVE_FAVORITE_TEAM" = true ∧
    strHasB (remove_player_from_favorites pyHash players pname).1 "PENDING_REMOVE_FAVORITE_PLAYER" = true := by
  have hTe : teams.eraseP (teamKeyMatches tname) = teams :=
    List.eraseP_of_forall_not (fun x hx => by
      have hfx := List.any_eq_false.mp hT x hx
      simpa using hfx)
  have hPe : players.eraseP (playerKeyMatches pname) = players :=
    List.eraseP_of_forall_not (fun x hx => by
      have hfx := List.any_eq_false.mp hP x hx
      simpa using hfx)
  have hCalRemove : remove_match_from_calendar cal hteam ateam
      = (calNotFoundMsg hteam ateam, cal) := by
    simp [remove_match_from_calendar, hC]
  have hCalConfirm : confirm_remove_from_calendar cal hteam ateam
      = (calNotFoundMsg hteam ateam, cal) := by
    simp [confirm_remove_from_calendar, hC]
  refine ⟨?_, ?_, ?_, ?_, ?_, ?_, ?_, ?_, ?_, ?_, ?_, ?_⟩
  · simp [remove_team_from_favorites]
  · simp [confirm_remove_favorite_team, hTe]
  · simp [remove_player_from_favorites]
  · simp [confirm_remove_favorite_player, hPe]
  · rw [hCalRemove]
  · rw [hCalConfirm]
  · rw [hCalRemove]
    simp only [calNotFoundMsg]
    apply strHasB_append_right
    decide
  · rw [hCalConfirm]
    simp only [calNotFoundMsg]
    apply strHasB_append_right
    decide
  · have hmsg : (confirm_remove_favorite_team pyHash teams tname).1
        = confirmRemoveTeamMsg tname
            (match teams.find? (teamKeyMatches tname) with
              | some t => t.id
              | none => natIdOf pyHash tname)
            (teams.eraseP (teamKeyMatches tname)).length := by
      simp [confirm_remove_favorite_team]
    rw [hmsg]
    simp only [confirmRemoveTeamMsg]
    iterate 8 apply strHasB_append_left
    decide
  · have hmsg : (confirm_remove_favorite_player pyHash players pname).1
        = confirmRemovePlayerMsg pname
            (match players.find? (playerKeyMatches pname) with
              | some p => p.id
              | none => natIdOf pyHash pname)
            (players.eraseP (playerKeyMatches pname)).length := by
      simp [confirm_remove_favorite_player]
    rw [hmsg]
    simp only [confirmRemovePlayerMsg]
    iterate 8 apply strHasB_append_left
    decide
  · have hmsg : (remove_team_from_favorites pyHash teams tname).1
        = pendingRemoveTeamMsg tname
            (match teams.find? (teamKeyMatches tname) with
              | some t => t.id
              | none => natIdOf pyHash tname) := by
      simp [remove_team_from_favorites]
    rw [hmsg]
    simp only [pendingRemoveTeamMsg]
    iterate 4 apply strHasB_append_left
    apply strHasB_append_right
    decide
  · have hmsg : (remove_player_from_favorites pyHash players pname).1
        = pendingRemovePlayerMsg pname
            (match players.find? (playerKeyMatches pname) with
              | some p => p.id
              | none => natIdOf pyHash pname) := by
      simp [remove_player_from_favorites]
    rw [hmsg]
    simp only [pendingRemovePlayerMsg]
    iterate 4 apply strHasB_append_left
    apply strHasB_append_right
    decide

/-- Instantiation of the amended C3 theorem on empty collections. -/
theorem c3_absent_remove_behavior_witness :
    (remove_team_from_favorites hashZero [] "Broncos").2 = [] ∧
    (confirm_remove_favorite_team hashZero [] "Broncos").2 = [] ∧
    (remove_player_from_favorites hashZero [] "Some Player").2 = [] ∧
    (confirm_remove_favorite_player hashZero [] "Some Player").2 = [] ∧
    (remove_match_from_calendar [] "FakeTeam1" "FakeTeam2").2 = [] ∧
    (confirm_remove_from_calendar [] "FakeTeam1" "FakeTeam2").2 = [] ∧
    strHasB (remove_match_from_calendar [] "FakeTeam1" "FakeTeam2").1 "not found" = true ∧
    strHasB (confirm_remove_from_calendar [] "FakeTeam1" "FakeTeam2").1 "not found" = true ∧
    strHasB (confirm_remove_favorite_team hashZero [] "Broncos").1 "removed" = true ∧
    strHasB (confirm_remove_favorite_player hashZero [] "Some Player").1 "removed" = true ∧
    strHasB (remove_team_from_favorites hashZero [] "Broncos").1 "PENDING_REMOVE_FAVORITE_TEAM" = true ∧
    strHasB (remove_player_from_favorites hashZero [] "Some Player").1 "PENDING_REMOVE_FAVORITE_PLAYER" = true :=
  c3_absent_remove_behavior hashZero [] [] [] "Broncos" "Some Player" "FakeTeam1" "FakeTeam2"
    (by decide) (by decide) (by decide)

/-- C4: for a team or player name not yet in its collection, the numeric id
embedded in the proposal artifact equals the id stored by the paired
confirm call even when the two calls run against different collection
states, because both are computed deterministically as
`abs(hash(name.lower())) % 10000`, a value in `[0, 10000)`. -/
theorem c4_deterministic_id (pyHash : String → Int)
    (teams1 teams2 : List TeamEntry) (players1 players2 : List PlayerEntry)
    (tname tleague pname pteam ppos : String)
    (hT1 : teams1.any (teamKeyMatches tname) = false)
    (hT2 : teams2.any (teamKeyMatches tname) = false)
    (hP1 : players1.any (playerKeyMatches pname) = false)
    (hP2 : players2.any (playerKeyMatches pname) = false) :
    strHasB (add_team_to_favorites pyHash teams1 tname tleague).1
      ("\"id\": " ++ toString (natIdOf pyHash tname)) = true ∧
    (confirm_add_favorite_team pyHash teams2 tname tleague).2
      = teams2 ++ [{ id := natIdOf pyHash tname, name := tname, league := tleague }] ∧
    strHasB (add_player_to_favorites pyHash players1 pname pteam ppos).1
      ("\"id\": " ++ toString (natIdOf pyHash pname)) = true ∧
    (confirm_add_favorite_player pyHash players2 pname pteam ppos).2
      = players2 ++ [{ id := natIdOf pyHash pname, name := pname, team := pteam, position := ppos }] ∧
    natIdOf pyHash tname = (pyHash (pyLower tname)).natAbs % 10000 ∧
    natIdOf pyHash tname < 10000 := by
  refine ⟨?_, ?_, ?_, ?_, rfl, ?_⟩
  · have hmsg : (add_team_to_favorites pyHash teams1 tname tleague).1
        = pendingTeamMsg tname tleague (natIdOf pyHash tname) := by
      simp [add_team_to_favorites, hT1]
    rw [hmsg]
    simp only [pendingTeamMsg]
    iterate 5 apply strHasB_append_left
    apply strHasB_append_right
    exact strHasB_self ("\"id\": " ++ toString (natIdOf pyHash tname))
  · simp [confirm_add_favorite_team, hT2]
  · have hmsg : (add_player_to_favorites pyHash players1 pname pteam ppos).1
        = pendingPlayerMsg pname pteam ppos (natIdOf pyHash pname) := by
      simp [add_player_to_favorites, hP1]
    rw [hmsg]
    simp only [pendingPlayerMsg]
    iterate 7 apply strHasB_append_left
    apply strHasB_append_right
    exact strHasB_self ("\"id\": " ++ toString (natIdOf pyHash pname))
  · simp [confirm_add_favorite_player, hP2]
  · exact Nat.mod_lt _ (by norm_num)

/-- Instantiation of the C4 theorem on empty and singleton collections. -/
theorem c4_deterministic_id_witness :
    strHasB (add_team_to_favorites hashZero [] "Kansas City Chiefs" "NFL").1
      ("\"id\": " ++ toString (natIdOf hashZero "Kansas City Chiefs")) = true ∧
    (confirm_add_favorite_team hashZero [{ id := 7, name := "Raiders", league := "NFL" }]
        "Kansas City Chiefs" "NFL").2
      = [{ id := 7, name := "Raiders", league := "NFL" }]
        ++ [{ id := natIdOf hashZero "Kansas City Chiefs", name := "Kansas City Chiefs", league := "NFL" }] ∧
    strHasB (add_player_to_favorites hashZero [] "Patrick Mahomes" "Chiefs" "QB").1
      ("\"id\": " ++ toString (natIdOf hashZero "Patrick Mahomes")) = true ∧
    (confirm_add_favorite_player hashZero [] "Patrick Mahomes" "Chiefs" "QB").2
      = [] ++ [{ id := natIdOf hashZero "Patrick Mahomes", name := "Patrick Mahomes", team := "Chiefs", position := "QB" }] ∧
    natIdOf hashZero "Kansas City Chiefs" = (hashZero (pyLower "Kansas City Chiefs")).natAbs % 10000 ∧
    natIdOf hashZero "Kansas City Chiefs" < 10000 :=
  c4_deterministic_id hashZero [] [{ id := 7, name := "Raiders", league := "NFL" }] [] []
    "Kansas City Chiefs" "NFL" "Patrick Mahomes" "Chiefs" "QB"
    (by decide) (by decide) (by decide) (by decide)

/-- C7 counterexample: in `sdNA` the home side's raw `score` field is
absent, yet the normalized home score is the integer 0 — not null as the
claim's rule (`scorePerSpec`) demands; the code and the claimed rule
disagree at this input. -/
theorem c7_counterexample :
    ((parse_football_games sdNA).map fun x => (some x.home_team.score : Option Int)) = [some 0] ∧
    scorePerSpec none = none ∧
    ((parse_football_games sdNA).map fun x => (some x.home_team.score : Option Int))
      ≠ [scorePerSpec none] := by
  refine ⟨by decide, rfl, by decide⟩

/-- C7 amended: in `parse_football_games` a team's score is `_safe_int` of
the raw score field, which is 0 whenever the field is absent, null, or
present but unparseable (such as `"N/A"`); by contrast the odds spread is
the raw `details` text carried through verbatim, so a spread of `"N/A"`
stays `"N/A"`. -/
theorem c7_score_and_spread (e : RawEvent) (comp : RawCompetition)
    (hc : e.competitions.head? = some comp) (hlen : ¬ comp.competitors.length < 2) :
    ((parseFootballEvent e).map fun x => x.home_team.score)
      = some (safe_int (resolveSides comp.competitors).1.score) ∧
    ((parseFootballEvent e).map fun x => x.away_team.score)
      = some (safe_int (resolveSides comp.competitors).2.score) ∧
    ((parseFootballEvent e).map fun x => x.odds.spread)
      = some (comp.odds.headD {}).details ∧
    safe_int (some (JVal.jstr "N/A")) = 0 ∧
    safe_int none = 0 ∧
    ((parse_football_games sdNA).map fun x => (x.home_team.score, x.away_team.score, x.odds.spread))
      = [(0, 0, "N/A")] := by
  refine ⟨?_, ?_, ?_, by decide, rfl, by decide⟩ <;>
    (unfold parseFootballEvent; rw [hc]; simp [hlen])

/-- Instantiation of the amended C7 theorem on the `sdNA` event. -/
theorem c7_score_and_spread_witness :
    ((parseFootballEvent sdNAEvent).map fun x => x.home_team.score)
      = some (safe_int (resolveSides sdNAComp.competitors).1.score) ∧
    ((parseFootballEvent sdNAEvent).map fun x => x.away_team.score)
      = some (safe_int (resolveSides sdNAComp.competitors).2.score) ∧
    ((parseFootballEvent sdNAEvent).map fun x => x.odds.spread)
      = some (sdNAComp.odds.headD {}).details ∧
    safe_int (some (JVal.jstr "N/A")) = 0 ∧
    safe_int none = 0 ∧
    ((parse_football_games sdNA).map fun x => (x.home_team.score, x.away_team.score, x.odds.spread))
      = [(0, 0, "N/A")] :=
  c7_score_and_spread sdNAEvent sdNAComp (by decide) (by decide)

/-- C8 counterexample: for the concrete standing entry `entry0`, whose
`rank` stat is 0 with no `playoffSeed` stat, the normalizer produces the
integer rank 0 — not the null that the claim (formalized by
`standingRankPerSpec`) requires. -/
theorem c8_counterexample :
    ((parseFootballStandingEntry entry0 "" "").map fun st => st.rank) = some 0 ∧
    standingRankPerSpec entry0.stats = none ∧
    ((parseFootballStandingEntry entry0 "" "").map fun st => (some st.rank : Option Int))
      ≠ some (standingRankPerSpec entry0.stats) := by
  refine ⟨by decide, by decide, by decide⟩

/-- C8 amended: in a normalized game a curated rank of 0 (or below) is
surfaced as null, exactly as claimed; but in a normalized standings entry
the rank field is an integer that is never null: when the `rank` stat is 0
and no `playoffSeed` stat is present the entry's rank is the integer 0. -/
theorem c8_rank_zero_as_null (e : RawEvent) (comp : RawCompetition)
    (hc : e.competitions.head? = some comp) (hlen : ¬ comp.competitors.length < 2)
    (entry : RawStandingEntry) (conf dv : String) (st : FootballStanding)
    (hst : parseFootballStandingEntry entry conf dv = some st)
    (hrank : statGet entry.stats "rank" (JVal.jint 0) = JVal.jint 0)
    (hseed : statGet entry.stats "playoffSeed" (JVal.jint 0) = JVal.jint 0) :
    ((parseFootballEvent e).map fun x => x.home_team.rank)
      = some (if (resolveSides comp.competitors).1.curatedRankCurrent.getD 0 > 0
          then some ((resolveSides comp.competitors).1.curatedRankCurrent.getD 0) else none) ∧
    st.rank = 0 ∧
    ((parse_football_games sdNA).map fun x => x.home_team.rank) = [none] ∧
    ((parseFootballStandingEntry entry0 "" "").map fun s => s.rank) = some 0 := by
  refine ⟨?_, ?_, by decide, by decide⟩
  · unfold parseFootballEvent
    rw [hc]
    simp [hlen]
  · unfold parseFootballStandingEntry at hst
    by_cases hok : pyFloatOKOf (statGet entry.stats "winPercent" (JVal.jint 0)) = true
    · rw [if_pos hok] at hst
      have hrec := Option.some.inj hst
      subst hrec
      simp [hrank, hseed, safe_intV]
    · rw [if_neg hok] at hst
      exact absurd hst (by simp)

/-- Instantiation of the amended C8 theorem on `sdNA` (curated rank 0) and
`entry0` (rank stat 0, no playoff seed). -/
theorem c8_rank_zero_as_null_witness :
    ((parseFootballEvent sdNAEvent).map fun x => x.home_team.rank)
      = some (if (resolveSides sdNAComp.competitors).1.curatedRankCurrent.getD 0 > 0
          then some ((resolveSides sdNAComp.competitors).1.curatedRankCurrent.getD 0) else none) ∧
    entry0St.rank = 0 ∧
    ((parse_football_games sdNA).map fun x => x.home_team.rank) = [none] ∧
    ((parseFootballStandingEntry entry0 "" "").map fun s => s.rank) = some 0 :=
  c8_rank_zero_as_null sdNAEvent sdNAComp (by decide) (by decide)
    entry0 "" "" entry0St (by decide) (by decide) (by decide)

theorem sortRenumber_position (pre : List LeagueStanding) :
    (((pre.mergeSort standingKeyLE).enum.map fun p =>
        { p.2 with position := (p.1 : Int) + 1 }).map fun s => s.position)
      = ((List.range (((pre.mergeSort standingKeyLE).enum.map fun p =>
          { p.2 with position := (p.1 : Int) + 1 }).length)).map fun i : Nat => (i : Int) + 1) := by
  have hlen : (((pre.mergeSort standingKeyLE).enum.map fun p : Nat × LeagueStanding =>
      { p.2 with position := (p.1 : Int) + 1 }).length) = (pre.mergeSort standingKeyLE).length := by
    simp
  rw [hlen]
  have step1 : (((pre.mergeSort standingKeyLE).enum.map fun p =>
      ({ p.2 with position := (p.1 : Int) + 1 } : LeagueStanding)).map fun s => s.position)
      = (pre.mergeSort standingKeyLE).enum.map fun p => (p.1 : Int) + 1 := by
    rw [List.map_map]
    rfl
  have step2 : (((pre.mergeSort standingKeyLE).enum.map Prod.fst).map fun i : Nat => (i : Int) + 1)
      = (pre.mergeSort standingKeyLE).enum.map fun p => (p.1 : Int) + 1 := by
    rw [List.map_map]
    rfl
  rw [step1, ← step2, List.enum_map_fst]

theorem sortRenumber_pairwise (pre : List LeagueStanding) :
    List.Pairwise (fun a b => standingKeyLE a b = true)
      ((pre.mergeSort standingKeyLE).enum.map fun p => { p.2 with position := (p.1 : Int) + 1 }) := by
  have hs : List.Pairwise (fun a b => standingKeyLE a b = true) (pre.mergeSort standingKeyLE) :=
    List.sorted_mergeSort standingKeyLE_trans standingKeyLE_total pre
  rw [← List.enum_map_snd (pre.mergeSort standingKeyLE)] at hs
  have hE : List.Pairwise (fun p q : Nat × LeagueStanding => standingKeyLE p.2 q.2 = true)
      (pre.mergeSort standingKeyLE).enum := (List.pairwise_map).mp hs
  refine (List.pairwise_map).mpr ?_
  exact hE.imp (fun h => h)

theorem sortRenumber_perm (pre : List LeagueStanding) :
    ((((pre.mergeSort standingKeyLE).enum.map fun p =>
        { p.2 with position := (p.1 : Int) + 1 }).map standingCore)).Perm
      (pre.map standingCore) := by
  rw [List.map_map]
  have h1 : (standingCore ∘ fun p : Nat × LeagueStanding =>
      { p.2 with position := (p.1 : Int) + 1 }) = standingCore ∘ Prod.snd := rfl
  rw [h1, ← List.map_map, List.enum_map_snd]
  exact (List.mergeSort_perm pre standingKeyLE).map standingCore

/-- C9: for every standings payload whose entries all parse and every
conference filter, `get_league_standings` returns exactly the entries
surviving the case-insensitive substring conference filter, sorted by wins
descending then point differential descending, with the position field
renumbered consecutively 1..N over the returned list (regardless of the
upstream rank values, which only seed the overwritten provisional
positions). -/
theorem c9_standings_sorted_renumbered (d : RawStandingsData) (conference : String)
    (parsed : List FootballStanding)
    (hp : parse_football_standingsE d = some parsed) :
    ((get_league_standings d conference).map fun s => s.position)
      = ((List.range (get_league_standings d conference).length).map fun i : Nat => (i : Int) + 1) ∧
    List.Pairwise (fun a b => standingKeyLE a b = true) (get_league_standings d conference) ∧
    ((get_league_standings d conference).map standingCore).Perm
      ((parsed.enum.filterMap fun p =>
          if confKeep conference p.2 then some (toLeagueStanding p.1 p.2) else none).map
        standingCore) := by
  by_cases hemp : parsed.isEmpty = true
  · have hnil : parsed = [] := List.isEmpty_iff.mp hemp
    subst hnil
    have hout0 : get_league_standings d conference = [] := by
      simp [get_league_standings, hp]
    rw [hout0]
    simp
  · have hemp' : parsed.isEmpty = false := by
      simpa using hemp
    have hout : get_league_standings d conference
        = ((parsed.enum.filterMap fun p =>
            if confKeep conference p.2 then some (toLeagueStanding p.1 p.2) else none).mergeSort
          standingKeyLE).enum.map fun p => { p.2 with position := (p.1 : Int) + 1 } := by
      simp [get_league_standings, hp, hemp']
    rw [hout]
    exact ⟨sortRenumber_position _, sortRenumber_pairwise _, sortRenumber_perm _⟩

/-- Instantiation of the C9 theorem on the flat two-entry payload `d9` with
no conference filter. -/
theorem c9_standings_sorted_renumbered_witness :
    ((get_league_standings d9 "").map fun s => s.position)
      = ((List.range (get_league_standings d9 "").length).map fun i : Nat => (i : Int) + 1) ∧
    List.Pairwise (fun a b => standingKeyLE a b = true) (get_league_standings d9 "") ∧
    ((get_league_standings d9 "").map standingCore).Perm
      (((((parse_football_standingsE d9).getD []).enum.filterMap fun p =>
          if confKeep "" p.2 then some (toLeagueStanding p.1 p.2) else none).map
        standingCore)) :=
  c9_standings_sorted_renumbered d9 "" ((parse_football_standingsE d9).getD []) (by decide)
